import Mathlib

/-!
Verification development for the FlySight Viewer plugin collection.

The Python sources are shallowly embedded:

* numeric sample sequences (NumPy float arrays / Python lists of floats)
  are modelled as `List ℚ` — all operations the claims exercise
  (differences, min/max, comparisons against literal thresholds) are
  exact on the inputs under consideration;
* a Python function returning `None` on failure becomes a Lean function
  returning `Option _`;
* the two module-level caches of `allan_variance.py`
  (`_COMMON_TAUS_CACHE`, `_ADEV_VALUES_CACHE`) become explicit state
  threaded through the embedded `compute` functions, together with
  instrumentation counters (`tausAdevCalls`, `valAdevCalls`) that count
  executions of the external `allantools.adev` routine, and a per-call
  request log recording the session keys each `compute` fetches.
-/

set_option autoImplicit false
set_option linter.unusedVariables false

namespace FlysightViewer

/-- DependencyKey from `flysight_plugin_sdk.py`: a requestable value is either a
`(sensor, measurement)` pair or an attribute name. -/
inductive DepKey where
  | measurement (sensor name : String)
  | attribute (name : String)
deriving DecidableEq

/-- Helper `meas(sensor, name)` from `flysight_plugin_sdk.py`. -/
def meas (sensor name : String) : DepKey := DepKey.measurement sensor name

/-- Helper `attr(name)` from `flysight_plugin_sdk.py`. -/
def attr (name : String) : DepKey := DepKey.attribute name

/-- `ALLAN_SENSOR_KEY` from `allan_variance.py`. -/
def ALLAN_SENSOR_KEY : String := "ALLAN_ADEV"

/-- `IMU_SENSOR_KEY` from `allan_variance.py`. -/
def IMU_SENSOR_KEY : String := "IMU"

/-- `IMU_TIME_KEY` from `allan_variance.py`. -/
def IMU_TIME_KEY : String := "_time"

/-- `COMMON_TAUS_MEASUREMENT_NAME` from `allan_variance.py`. -/
def COMMON_TAUS_MEASUREMENT_NAME : String := "common_taus"

/-- `MIN_DATA_SAMPLES_FOR_AVAR = 2000` from `allan_variance.py` line 39. -/
def MIN_DATA_SAMPLES_FOR_AVAR : Nat := 2000

/-- Modelled from the spec: the host `Session` data-access interface (spec §6)
is not part of this repository (it lives in the C++ host). Raw measurement
tables are sequences of rationals; attribute values are strings (the Allan
plugins only ever pass attributes through Python `str`). -/
structure Session where
  getAttributeRaw : String → Option String
  getMeasurementRaw : String → String → Option (List ℚ)

/-- The value of `str(session.getAttribute("SESSION_ID"))` used as the cache
partition key in `allan_variance.py` lines 99 and 176 (Python `str(None)` is
the string `"None"`). -/
def sessionIdStr (s : Session) : String :=
  match s.getAttributeRaw "SESSION_ID" with
  | none => "None"
  | some v => v

/-- The `taus=` argument of `allantools.adev`: either the string `"octave"`
or an explicit tau array. -/
inductive TausArg where
  | octave
  | arr (taus : List ℚ)

/-- Modelled from the spec: the external `allantools` library (an opaque
external collaborator per spec §1). `allantoolsAvailable` models the
module-level `allantools` import possibly having failed; `adev` returns the
`(taus_out, adevs_out)` pair of `allantools.adev`, or an error when the call
raises. -/
structure AdevModel where
  allantoolsAvailable : Bool
  adev : List ℚ → ℚ → TausArg → Except String (List ℚ × List ℚ)

/-- Association-list lookup, modelling Python `dict` membership/indexing. -/
def alistLookup {α β : Type} [DecidableEq α] : List (α × β) → α → Option β
  | [], _ => none
  | (k, v) :: rest, key => if k = key then some v else alistLookup rest key

/-- Association-list insert (Python `dict` assignment); a new binding shadows
any older binding for the same key under `alistLookup`. -/
def alistInsert {α β : Type} [DecidableEq α] (l : List (α × β)) (k : α) (v : β) :
    List (α × β) :=
  (k, v) :: l

/-- The module-level mutable state of `allan_variance.py`:
`_COMMON_TAUS_CACHE` (session id → cached common-taus result, line 43),
`_ADEV_VALUES_CACHE` ((session id, imu key) → cached adev result, line 46),
plus two instrumentation counters recording how many times `allantools.adev`
has been executed by the taus producer and by the value producers
(the spec's §8 "invocation counter in a test producer"). -/
structure AllanState where
  commonTausCache : List (String × Option (List ℚ))
  adevValuesCache : List ((String × String) × Option (List ℚ))
  tausAdevCalls : Nat
  valAdevCalls : Nat

/-- The empty initial state: both caches empty, no adev executions yet. -/
def initAllanState : AllanState :=
  { commonTausCache := [], adevValuesCache := [], tausAdevCalls := 0, valAdevCalls := 0 }

/-- Embeds `_get_imu_sampling_rate` (`allan_variance.py` lines 54–75).
Returns the computed rate together with the list of session keys the helper
requests (`session.getMeasurement(IMU_SENSOR_KEY, IMU_TIME_KEY)`, line 56).
Note the size guard on line 62 compares against `MIN_DATA_SAMPLES_FOR_AVAR`,
not against 2. -/
def getImuSamplingRate (s : Session) : Option ℚ × List DepKey :=
  (match s.getMeasurementRaw IMU_SENSOR_KEY IMU_TIME_KEY with
   | none => none
   | some ts =>
     if ts.length < MIN_DATA_SAMPLES_FOR_AVAR then none
     else
       let timeSpan := ts.getLastD 0 - ts.headD 0
       if |timeSpan| < (1 : ℚ) / 1000000000 then none
       else
         let rate := ((ts.length : ℚ) - 1) / timeSpan
         if rate ≤ 0 then none else some rate,
   [meas IMU_SENSOR_KEY IMU_TIME_KEY])

/-- The cache-miss body of `AllanCommonTausPlugin.compute`
(`allan_variance.py` lines 106–142), i.e. everything after the cache lookup.
Returns `(result, adevInvoked, requests)` where `result` is the value the
source both caches and returns on that path, `adevInvoked` records whether
the `allantools.adev` call on line 128 was reached, and `requests` lists the
session keys fetched (lines 106 via `_get_imu_sampling_rate`, and 116). -/
def tausFreshCompute (A : AdevModel) (s : Session) :
    Option (List ℚ) × Bool × List DepKey :=
  match (getImuSamplingRate s).1 with
  | none => (none, false, (getImuSamplingRate s).2)
  | some rate =>
    let numSamples := ((s.getMeasurementRaw IMU_SENSOR_KEY IMU_TIME_KEY).getD []).length
    let reqs := (getImuSamplingRate s).2 ++ [meas IMU_SENSOR_KEY IMU_TIME_KEY]
    if numSamples < MIN_DATA_SAMPLES_FOR_AVAR then (none, false, reqs)
    else
      match A.adev (List.replicate numSamples 0) rate TausArg.octave with
      | Except.ok out => (some out.1, true, reqs)
      | Except.error _ => (none, true, reqs)

/-- Embeds `AllanCommonTausPlugin.compute` (`allan_variance.py` lines 94–142).
Returns `(result, newState, requests)`: the returned value, the module-level
cache state after the call, and the session keys this compute fetched
(`getAttribute("SESSION_ID")` on line 99 and the measurement fetches of the
miss path). The `debug` argument is the module-level `DEBUG_ALLAN` flag,
which in the source only gates `print` diagnostics (no value effect), so it
is unused here. -/
def commonTausCompute (debug : Bool) (A : AdevModel) (s : Session)
    (st : AllanState) : Option (List ℚ) × AllanState × List DepKey :=
  if A.allantoolsAvailable then
    let sid := sessionIdStr s
    match alistLookup st.commonTausCache sid with
    | some v => (v, st, [attr "SESSION_ID"])
    | none =>
      let fresh := tausFreshCompute A s
      let st1 := if fresh.2.1 then
          { st with tausAdevCalls := st.tausAdevCalls + 1 } else st
      (fresh.1,
       { st1 with commonTausCache := alistInsert st1.commonTausCache sid fresh.1 },
       attr "SESSION_ID" :: fresh.2.2)
  else (none, st, [])

/-- The body of `AllanAdevValuePlugin.compute` after the common-taus fetch
(`allan_variance.py` lines 189–254), as a function of the common-taus result
`ctv`. Returns `(result, adevInvoked, requests)` where `requests` lists the
session keys this part fetches (line 196, and line 211 via
`_get_imu_sampling_rate`). -/
def adevFreshCompute (A : AdevModel) (origKey : String) (factor : ℚ)
    (s : Session) (ctv : Option (List ℚ)) :
    Option (List ℚ) × Bool × List DepKey :=
  match ctv with
  | none => (none, false, [])
  | some commonTaus =>
    match s.getMeasurementRaw IMU_SENSOR_KEY origKey with
    | none => (none, false, [meas IMU_SENSOR_KEY origKey])
    | some rawData =>
      if rawData.length < MIN_DATA_SAMPLES_FOR_AVAR then
        (none, false, [meas IMU_SENSOR_KEY origKey])
      else
        let dataConverted := rawData.map (fun x => x * factor)
        let reqs := [meas IMU_SENSOR_KEY origKey] ++ (getImuSamplingRate s).2
        match (getImuSamplingRate s).1 with
        | none => (none, false, reqs)
        | some rate =>
          match A.adev dataConverted rate (TausArg.arr commonTaus) with
          | Except.ok out => (some out.2, true, reqs)
          | Except.error _ => (none, true, reqs)

/-- Modelled from the spec: the host resolver (spec §4.2) routes a
`session.getMeasurement(ALLAN_SENSOR_KEY, COMMON_TAUS_MEASUREMENT_NAME)`
request (`allan_variance.py` line 188) to the registered producer
`AllanCommonTausPlugin.compute`. The host-side cache is deliberately not
modelled: every request re-enters the producer, the worst case for the
at-most-once properties, which therefore rest on the plugin-level cache
alone. -/
def resolveCommonTaus (debug : Bool) (A : AdevModel) (s : Session)
    (st : AllanState) : Option (List ℚ) × AllanState × List DepKey :=
  commonTausCompute debug A s st

/-- Embeds `AllanAdevValuePlugin.compute` (`allan_variance.py` lines 171–254)
for the instance with `original_imu_key = origKey` and
`_unit_conversion_factor = factor`. Returns `(result, newState, requests)`;
`requests` are this compute's own session fetches (lines 176, 188, 196, 211),
not those of the common-taus producer it triggers. -/
def adevCompute (debug : Bool) (A : AdevModel) (origKey : String) (factor : ℚ)
    (s : Session) (st : AllanState) : Option (List ℚ) × AllanState × List DepKey :=
  if A.allantoolsAvailable then
    let sid := sessionIdStr s
    let cacheKey := (sid, origKey)
    match alistLookup st.adevValuesCache cacheKey with
    | some v => (v, st, [attr "SESSION_ID"])
    | none =>
      let ct := resolveCommonTaus debug A s st
      let fresh := adevFreshCompute A origKey factor s ct.1
      let st1 := ct.2.1
      let st2 := if fresh.2.1 then
          { st1 with valAdevCalls := st1.valAdevCalls + 1 } else st1
      (fresh.1,
       { st2 with adevValuesCache := alistInsert st2.adevValuesCache cacheKey fresh.1 },
       attr "SESSION_ID" ::
         meas ALLAN_SENSOR_KEY COMMON_TAUS_MEASUREMENT_NAME :: fresh.2.2)
  else (none, st, [])

/-- One compute invocation against a session: either the common-taus producer
or an adev-value producer instance (e.g. `adev_ax`, `adev_ay`). -/
inductive AllanCall where
  | taus
  | adevVal (origKey : String) (factor : ℚ)

/-- State transition of one compute invocation. -/
def stepCall (debug : Bool) (A : AdevModel) (s : Session) :
    AllanCall → AllanState → AllanState
  | AllanCall.taus, st => (commonTausCompute debug A s st).2.1
  | AllanCall.adevVal k f, st => (adevCompute debug A k f s st).2.1

/-- Runs a sequence of compute invocations against one session. -/
def runCalls (debug : Bool) (A : AdevModel) (s : Session)
    (calls : List AllanCall) (st : AllanState) : AllanState :=
  calls.foldl (fun acc c => stepCall debug A s c acc) st

/-- `AllanCommonTausPlugin.inputs` (`allan_variance.py` lines 90–92). -/
def commonTausInputs : List DepKey := [meas IMU_SENSOR_KEY IMU_TIME_KEY]

/-- `AllanAdevValuePlugin.inputs` (`allan_variance.py` lines 163–169). -/
def adevValueInputs (origKey : String) : List DepKey :=
  [meas IMU_SENSOR_KEY origKey,
   meas IMU_SENSOR_KEY IMU_TIME_KEY,
   meas ALLAN_SENSOR_KEY COMMON_TAUS_MEASUREMENT_NAME]

/-- The number of time samples `((session.getMeasurementRaw IMU _time).getD []).length`
seen by the Allan plugins (0 when the measurement is absent). -/
def timeSampleCount (s : Session) : Nat :=
  ((s.getMeasurementRaw IMU_SENSOR_KEY IMU_TIME_KEY).getD []).length

/-- The number of samples of a raw IMU axis measurement (0 when absent). -/
def axisSampleCount (s : Session) (origKey : String) : Nat :=
  ((s.getMeasurementRaw IMU_SENSOR_KEY origKey).getD []).length

/-- Embeds lines 8–9 of `allan_variance.py`: the DEBUG_ALLAN flag computed
from the `FLYSIGHT_DEBUG_ALLAN` environment variable (default `"True"`). -/
def debugAllanFlag (envValue : Option String) : Bool :=
  (["true", "1", "t", "yes"] : List String).contains (envValue.getD "True").toLower

/-- Minimum of a nonempty sample sequence (NumPy `min` / `times.min()`);
defaults to 0 on the empty list, which no caller reaches. -/
def listMin (l : List ℚ) : ℚ := l.foldl min (l.headD 0)

/-- Maximum of a nonempty sample sequence (NumPy `max` / `times.max()`). -/
def listMax (l : List ℚ) : ℚ := l.foldl max (l.headD 0)

/-- Embeds `PitotDuration.compute` (`pitot.py` lines 55–69) as a function of
the `PITOT/_time` sequence. -/
def pitotDurationCompute (times : List ℚ) : Option ℚ :=
  if times.length = 0 then none
  else
    let start := listMin times
    let stop := listMax times
    let duration := stop - start
    if duration < 0 then none else some duration

/-- Embeds `DefaultDuration.compute` (`flysight_plugin_sdk.py` lines 95–99)
as a function of the `_time` sequence. -/
def defaultDurationCompute (times : List ℚ) : Option ℚ :=
  if times.length = 0 then none
  else
    let dur := listMax times - listMin times
    if 0 ≤ dur then some dur else none

/-- Embeds `DefaultStartTime.compute` (`flysight_plugin_sdk.py` lines 81–86);
`isoFmt` models the external `datetime.fromtimestamp(...).isoformat()`
formatting, out of scope per the spec. -/
def defaultStartTimeCompute (isoFmt : ℚ → String) (times : List ℚ) : Option String :=
  if times.length = 0 then none else some (isoFmt (listMin times))

/-- Embeds `DefaultExitTime.compute` (`flysight_plugin_sdk.py` lines 107–112):
formats the last timestamp `times[-1]`. -/
def defaultExitTimeCompute (isoFmt : ℚ → String) (times : List ℚ) : Option String :=
  if times.length = 0 then none else some (isoFmt (times.getLastD 0))

/-- Embeds `DefaultTime.compute` (`flysight_plugin_sdk.py` lines 124–127). -/
def defaultTimeCompute (raw : List ℚ) : Option (List ℚ) :=
  if raw.length = 0 then none else some raw

/-- Embeds `PitotExitTime.compute` (`pitot.py` lines 14–24); `isoFmtUtc`
models `datetime.datetime.utcfromtimestamp(...).isoformat() + "Z"`. -/
def pitotExitTimeCompute (isoFmtUtc : ℚ → String) (times : List ℚ) : Option String :=
  if times.length = 0 then none else some (isoFmtUtc (times.getLastD 0))

/-- Embeds `PitotStartTime.compute` (`pitot.py` lines 34–44). -/
def pitotStartTimeCompute (isoFmtUtc : ℚ → String) (times : List ℚ) : Option String :=
  if times.length = 0 then none else some (isoFmtUtc (listMin times))

/-- Registry entry for an `AttributePlugin` (`flysight_plugin_sdk.py` lines
32–41): the fields the registry-facing interface exposes. -/
structure AttributePluginEntry where
  name : String
  units : Option String := none
  inputs : List DepKey := []

/-- Registry entry for a `MeasurementPlugin` (`flysight_plugin_sdk.py` lines
46–56). -/
structure MeasurementPluginEntry where
  name : String
  units : Option String := none
  sensor : String
  inputs : List DepKey := []

/-- The `SimplePlot` dataclass (`python_plugins/flysight_plugin_sdk.py`
lines 113–165). -/
structure SimplePlot where
  category : String
  name : String
  units : Option String
  color : String
  sensor : String
  measurement : String
  measurement_type : Option String := none

/-- The `SimpleMarker` dataclass (`python_plugins/flysight_plugin_sdk.py`
lines 171–201). -/
structure SimpleMarker where
  category : String
  display_name : String
  short_label : String
  color : String
  attribute_key : String
  measurements : List (String × String) := []
  editable : Bool := false

/-- The four module-level registry lists of
`python_plugins/flysight_plugin_sdk.py` lines 62–65
(`_attributes`, `_measurements`, `_simple_plots`, `_markers`). -/
structure SdkRegistries where
  attributes : List AttributePluginEntry
  measurements : List MeasurementPluginEntry
  simple_plots : List SimplePlot
  markers : List SimpleMarker

/-- `register_attribute` (`flysight_plugin_sdk.py` lines 43–44 /
`python_plugins` lines 95–96): `_attributes.append(plugin)`. -/
def register_attribute (st : SdkRegistries) (p : AttributePluginEntry) : SdkRegistries :=
  { st with attributes := st.attributes ++ [p] }

/-- `register_measurement` (`python_plugins/flysight_plugin_sdk.py`
lines 110–111): `_measurements.append(plugin)`. -/
def register_measurement (st : SdkRegistries) (p : MeasurementPluginEntry) : SdkRegistries :=
  { st with measurements := st.measurements ++ [p] }

/-- `register_plot` (`python_plugins/flysight_plugin_sdk.py` lines 167–168):
`_simple_plots.append(meta)`. -/
def register_plot (st : SdkRegistries) (p : SimplePlot) : SdkRegistries :=
  { st with simple_plots := st.simple_plots ++ [p] }

/-- `register_marker` (`python_plugins/flysight_plugin_sdk.py` lines
203–204): `_markers.append(meta)`. -/
def register_marker (st : SdkRegistries) (p : SimpleMarker) : SdkRegistries :=
  { st with markers := st.markers ++ [p] }
/-- Invariant used for the at-most-once property: the taus-producing
`allantools.adev` call has fired at most once for the session, and has not
fired at all while the session's common-taus cache entry is still absent. -/
def TausInv (s : Session) (st : AllanState) : Prop :=
  st.tausAdevCalls ≤ 1 ∧
  (alistLookup st.commonTausCache (sessionIdStr s) = none → st.tausAdevCalls = 0)

/-- Concrete session whose `IMU/_time` table is `[0.0, 1.0]` (2 samples,
span 1.0) - the input of the C1 counterexample. -/
def c1Session : Session :=
  { getAttributeRaw := fun _ => none,
    getMeasurementRaw := fun sk mk =>
      if sk = "IMU" then (if mk = "_time" then some [0, 1] else none) else none }

/-- A concrete 2000-sample time sequence: 1999 zeros followed by a final
sample at t = 1, so the span is 1 and the source would compute rate 1999. -/
def wTimes : List ℚ := (0 :: List.replicate 1998 0) ++ [1]

/-- Concrete session whose `IMU/_time` table is `wTimes`. -/
def wSession : Session :=
  { getAttributeRaw := fun n => if n = "SESSION_ID" then some "S1" else none,
    getMeasurementRaw := fun sk mk =>
      if sk = "IMU" then (if mk = "_time" then some wTimes else none) else none }

/-- Allantools model whose `adev` always succeeds (used for C2 concretely). -/
def c2OkModel : AdevModel :=
  { allantoolsAvailable := true, adev := fun _ _ _ => Except.ok ([], []) }

/-- Concrete empty session (no attributes, no measurements) for C2. -/
def c2Session : Session :=
  { getAttributeRaw := fun _ => none, getMeasurementRaw := fun _ _ => none }

/-- Allantools model whose `adev` always succeeds (used for C3 concretely). -/
def c3Model : AdevModel :=
  { allantoolsAvailable := true, adev := fun _ _ _ => Except.ok ([1], [1]) }

/-- Concrete session with a `SESSION_ID` attribute and no measurements. -/
def c3Session : Session :=
  { getAttributeRaw := fun n => if n = "SESSION_ID" then some "S1" else none,
    getMeasurementRaw := fun _ _ => none }

/-- Allantools model whose `adev` always succeeds (used for C4 concretely). -/
def c4Model : AdevModel :=
  { allantoolsAvailable := true, adev := fun _ _ _ => Except.ok ([], []) }

/-- Concrete empty session for C4: every compute on it fails for lack of
data. -/
def c4Session : Session :=
  { getAttributeRaw := fun _ => none, getMeasurementRaw := fun _ _ => none }

/-- Allantools model whose `adev` always succeeds (used for C5 concretely). -/
def c5Model : AdevModel :=
  { allantoolsAvailable := true, adev := fun _ _ _ => Except.ok ([1], [1]) }

/-- Concrete session with id `"A"` for the C5 isolation witness. -/
def c5SessionA : Session :=
  { getAttributeRaw := fun n => if n = "SESSION_ID" then some "A" else none,
    getMeasurementRaw := fun _ _ => none }

/-- Concrete session with id `"B"` for the C5 isolation witness. -/
def c5SessionB : Session :=
  { getAttributeRaw := fun n => if n = "SESSION_ID" then some "B" else none,
    getMeasurementRaw := fun _ _ => none }

/-- Allantools model whose `adev` always succeeds (used for C6 concretely). -/
def c6Model : AdevModel :=
  { allantoolsAvailable := true, adev := fun _ _ _ => Except.ok ([1], [1]) }

/-- Concrete session with 3 IMU time samples and 3 `ax` samples, well below
the 2000-sample threshold. -/
def c6Session : Session :=
  { getAttributeRaw := fun n => if n = "SESSION_ID" then some "S6" else none,
    getMeasurementRaw := fun sk mk =>
      if sk = "IMU" then
        (if mk = "_time" then some [0, 1, 2] else
         if mk = "ax" then some [1, 2, 3] else none)
      else none }

/-! ## Helper lemmas about the association-list caches -/

theorem alistLookup_insert_self {α β : Type} [DecidableEq α]
    (l : List (α × β)) (k : α) (v : β) :
    alistLookup (alistInsert l k v) k = some v := by
  simp [alistInsert, alistLookup]

theorem alistLookup_insert_ne {α β : Type} [DecidableEq α]
    (l : List (α × β)) (k : α) (v : β) (k' : α) (h : k ≠ k') :
    alistLookup (alistInsert l k v) k' = alistLookup l k' := by
  simp [alistInsert, alistLookup, h]

/-! ## Case lemmas for the embedded compute functions -/

theorem commonTaus_not_available {debug : Bool} {A : AdevModel} {s : Session}
    {st : AllanState} (h : A.allantoolsAvailable = false) :
    commonTausCompute debug A s st = (none, st, []) := by
  simp [commonTausCompute, h]

theorem commonTaus_hit {debug : Bool} {A : AdevModel} {s : Session}
    {st : AllanState} {v : Option (List ℚ)}
    (hA : A.allantoolsAvailable = true)
    (hv : alistLookup st.commonTausCache (sessionIdStr s) = some v) :
    commonTausCompute debug A s st = (v, st, [attr "SESSION_ID"]) := by
  simp [commonTausCompute, hA, hv]

theorem commonTaus_miss {debug : Bool} {A : AdevModel} {s : Session}
    {st : AllanState}
    (hA : A.allantoolsAvailable = true)
    (hv : alistLookup st.commonTausCache (sessionIdStr s) = none) :
    commonTausCompute debug A s st =
      ((tausFreshCompute A s).1,
       { (if (tausFreshCompute A s).2.1 then
            { st with tausAdevCalls := st.tausAdevCalls + 1 } else st) with
         commonTausCache :=
           alistInsert
             (if (tausFreshCompute A s).2.1 then
                { st with tausAdevCalls := st.tausAdevCalls + 1 } else st).commonTausCache
             (sessionIdStr s) (tausFreshCompute A s).1 },
       attr "SESSION_ID" :: (tausFreshCompute A s).2.2) := by
  simp [commonTausCompute, hA, hv]

theorem adev_not_available {debug : Bool} {A : AdevModel} {origKey : String}
    {factor : ℚ} {s : Session} {st : AllanState}
    (h : A.allantoolsAvailable = false) :
    adevCompute debug A origKey factor s st = (none, st, []) := by
  simp [adevCompute, h]

theorem adev_hit {debug : Bool} {A : AdevModel} {origKey : String}
    {factor : ℚ} {s : Session} {st : AllanState} {v : Option (List ℚ)}
    (hA : A.allantoolsAvailable = true)
    (hv : alistLookup st.adevValuesCache (sessionIdStr s, origKey) = some v) :
    adevCompute debug A origKey factor s st = (v, st, [attr "SESSION_ID"]) := by
  simp [adevCompute, hA, hv]

theorem adev_miss {debug : Bool} {A : AdevModel} {origKey : String}
    {factor : ℚ} {s : Session} {st : AllanState}
    (hA : A.allantoolsAvailable = true)
    (hv : alistLookup st.adevValuesCache (sessionIdStr s, origKey) = none) :
    adevCompute debug A origKey factor s st =
      (let ct := resolveCommonTaus debug A s st
       let fresh := adevFreshCompute A origKey factor s ct.1
       let st1 := ct.2.1
       let st2 := if fresh.2.1 then
           { st1 with valAdevCalls := st1.valAdevCalls + 1 } else st1
       (fresh.1,
        { st2 with adevValuesCache :=
            alistInsert st2.adevValuesCache (sessionIdStr s, origKey) fresh.1 },
        attr "SESSION_ID" ::
          meas ALLAN_SENSOR_KEY COMMON_TAUS_MEASUREMENT_NAME :: fresh.2.2)) := by
  simp [adevCompute, hA, hv]

/-! ## Componentwise effect lemmas -/

theorem commonTaus_adevCache (debug : Bool) (A : AdevModel) (s : Session)
    (st : AllanState) :
    (commonTausCompute debug A s st).2.1.adevValuesCache = st.adevValuesCache := by
  cases hA : A.allantoolsAvailable
  · rw [commonTaus_not_available hA]
  · cases hv : alistLookup st.commonTausCache (sessionIdStr s) with
    | some v => rw [commonTaus_hit hA hv]
    | none =>
      rw [commonTaus_miss hA hv]
      cases h2 : (tausFreshCompute A s).2.1 <;> simp [h2]

theorem commonTaus_valCalls (debug : Bool) (A : AdevModel) (s : Session)
    (st : AllanState) :
    (commonTausCompute debug A s st).2.1.valAdevCalls = st.valAdevCalls := by
  cases hA : A.allantoolsAvailable
  · rw [commonTaus_not_available hA]
  · cases hv : alistLookup st.commonTausCache (sessionIdStr s) with
    | some v => rw [commonTaus_hit hA hv]
    | none =>
      rw [commonTaus_miss hA hv]
      cases h2 : (tausFreshCompute A s).2.1 <;> simp [h2]

theorem commonTaus_lookup_other (debug : Bool) (A : AdevModel) (s : Session)
    (st : AllanState) (sid : String) (h : sid ≠ sessionIdStr s) :
    alistLookup (commonTausCompute debug A s st).2.1.commonTausCache sid =
      alistLookup st.commonTausCache sid := by
  cases hA : A.allantoolsAvailable
  · rw [commonTaus_not_available hA]
  · cases hv : alistLookup st.commonTausCache (sessionIdStr s) with
    | some v => rw [commonTaus_hit hA hv]
    | none =>
      rw [commonTaus_miss hA hv]
      cases h2 : (tausFreshCompute A s).2.1 <;>
        simp [h2, alistLookup_insert_ne _ _ _ _ (Ne.symm h)]

theorem commonTaus_lookup_self (debug : Bool) (A : AdevModel) (s : Session)
    (st : AllanState) (hA : A.allantoolsAvailable = true) :
    alistLookup (commonTausCompute debug A s st).2.1.commonTausCache (sessionIdStr s) =
      some (commonTausCompute debug A s st).1 := by
  cases hv : alistLookup st.commonTausCache (sessionIdStr s) with
  | some v => rw [commonTaus_hit hA hv]; exact hv
  | none =>
    rw [commonTaus_miss hA hv]
    cases h2 : (tausFreshCompute A s).2.1 <;>
      simp [h2, alistLookup_insert_self]

theorem commonTaus_tausCalls_le (debug : Bool) (A : AdevModel) (s : Session)
    (st : AllanState) :
    (commonTausCompute debug A s st).2.1.tausAdevCalls ≤ st.tausAdevCalls + 1 := by
  cases hA : A.allantoolsAvailable
  · rw [commonTaus_not_available hA]; exact Nat.le_succ _
  · cases hv : alistLookup st.commonTausCache (sessionIdStr s) with
    | some v => rw [commonTaus_hit hA hv]; exact Nat.le_succ _
    | none =>
      rw [commonTaus_miss hA hv]
      cases h2 : (tausFreshCompute A s).2.1 <;> simp [h2]

theorem adev_tausView (debug : Bool) (A : AdevModel) (origKey : String)
    (factor : ℚ) (s : Session) (st : AllanState) :
    ((adevCompute debug A origKey factor s st).2.1.commonTausCache = st.commonTausCache ∧
     (adevCompute debug A origKey factor s st).2.1.tausAdevCalls = st.tausAdevCalls) ∨
    ((adevCompute debug A origKey factor s st).2.1.commonTausCache =
       (commonTausCompute debug A s st).2.1.commonTausCache ∧
     (adevCompute debug A origKey factor s st).2.1.tausAdevCalls =
       (commonTausCompute debug A s st).2.1.tausAdevCalls) := by
  cases hA : A.allantoolsAvailable
  · left; rw [adev_not_available hA]; exact ⟨rfl, rfl⟩
  · cases hv : alistLookup st.adevValuesCache (sessionIdStr s, origKey) with
    | some v => left; rw [adev_hit hA hv]; exact ⟨rfl, rfl⟩
    | none =>
      right
      rw [adev_miss hA hv]
      cases h2 : (adevFreshCompute A origKey factor s (commonTausCompute debug A s st).1).2.1 <;>
        simp [h2, resolveCommonTaus]

theorem adev_valCalls_le (debug : Bool) (A : AdevModel) (origKey : String)
    (factor : ℚ) (s : Session) (st : AllanState) :
    (adevCompute debug A origKey factor s st).2.1.valAdevCalls ≤ st.valAdevCalls + 1 := by
  cases hA : A.allantoolsAvailable
  · rw [adev_not_available hA]; exact Nat.le_succ _
  · cases hv : alistLookup st.adevValuesCache (sessionIdStr s, origKey) with
    | some v => rw [adev_hit hA hv]; exact Nat.le_succ _
    | none =>
      rw [adev_miss hA hv]
      cases h2 : (adevFreshCompute A origKey factor s (commonTausCompute debug A s st).1).2.1 <;>
        simp [h2, resolveCommonTaus, commonTaus_valCalls]

theorem adev_lookup_self (debug : Bool) (A : AdevModel) (origKey : String)
    (factor : ℚ) (s : Session) (st : AllanState)
    (hA : A.allantoolsAvailable = true) :
    alistLookup (adevCompute debug A origKey factor s st).2.1.adevValuesCache
        (sessionIdStr s, origKey) =
      some (adevCompute debug A origKey factor s st).1 := by
  cases hv : alistLookup st.adevValuesCache (sessionIdStr s, origKey) with
  | some v => rw [adev_hit hA hv]; exact hv
  | none =>
    rw [adev_miss hA hv]
    cases h2 : (adevFreshCompute A origKey factor s (commonTausCompute debug A s st).1).2.1 <;>
      simp [h2, alistLookup_insert_self]

theorem adev_lookup_other (debug : Bool) (A : AdevModel) (origKey : String)
    (factor : ℚ) (s : Session) (st : AllanState)
    (sid : String) (k : String) (h : sid ≠ sessionIdStr s) :
    alistLookup (adevCompute debug A origKey factor s st).2.1.adevValuesCache (sid, k) =
      alistLookup st.adevValuesCache (sid, k) := by
  have hpair : ((sessionIdStr s, origKey) : String × String) ≠ (sid, k) := by
    intro hc
    exact h (congrArg Prod.fst hc).symm
  cases hA : A.allantoolsAvailable
  · rw [adev_not_available hA]
  · cases hv : alistLookup st.adevValuesCache (sessionIdStr s, origKey) with
    | some v => rw [adev_hit hA hv]
    | none =>
      rw [adev_miss hA hv]
      cases h2 : (adevFreshCompute A origKey factor s (commonTausCompute debug A s st).1).2.1 <;>
        simp [h2, resolveCommonTaus, alistLookup_insert_ne _ _ _ _ hpair,
          commonTaus_adevCache]

theorem adev_tausLookup_other (debug : Bool) (A : AdevModel) (origKey : String)
    (factor : ℚ) (s : Session) (st : AllanState)
    (sid : String) (h : sid ≠ sessionIdStr s) :
    alistLookup (adevCompute debug A origKey factor s st).2.1.commonTausCache sid =
      alistLookup st.commonTausCache sid := by
  rcases adev_tausView debug A origKey factor s st with ⟨hc, _⟩ | ⟨hc, _⟩
  · rw [hc]
  · rw [hc]; exact commonTaus_lookup_other debug A s st sid h

/-! ## The at-most-once invariant -/

theorem tausInv_commonTaus (debug : Bool) (A : AdevModel) (s : Session)
    (st : AllanState) (h : TausInv s st) :
    TausInv s (commonTausCompute debug A s st).2.1 := by
  cases hA : A.allantoolsAvailable
  · rw [commonTaus_not_available hA]; exact h
  · cases hv : alistLookup st.commonTausCache (sessionIdStr s) with
    | some v => rw [commonTaus_hit hA hv]; exact h
    | none =>
      have hz : st.tausAdevCalls = 0 := h.2 hv
      constructor
      · calc (commonTausCompute debug A s st).2.1.tausAdevCalls
            ≤ st.tausAdevCalls + 1 := commonTaus_tausCalls_le debug A s st
          _ = 1 := by rw [hz]
      · intro hnone
        rw [commonTaus_lookup_self debug A s st hA] at hnone
        exact Option.noConfusion hnone

theorem tausInv_adev (debug : Bool) (A : AdevModel) (origKey : String)
    (factor : ℚ) (s : Session) (st : AllanState) (h : TausInv s st) :
    TausInv s (adevCompute debug A origKey factor s st).2.1 := by
  rcases adev_tausView debug A origKey factor s st with ⟨hc, hn⟩ | ⟨hc, hn⟩
  · exact ⟨hn ▸ h.1, fun hx => hn ▸ h.2 (hc ▸ hx)⟩
  · have h2 := tausInv_commonTaus debug A s st h
    exact ⟨hn ▸ h2.1, fun hx => hn ▸ h2.2 (hc ▸ hx)⟩

theorem tausInv_step (debug : Bool) (A : AdevModel) (s : Session)
    (c : AllanCall) (st : AllanState) (h : TausInv s st) :
    TausInv s (stepCall debug A s c st) := by
  cases c with
  | taus => exact tausInv_commonTaus debug A s st h
  | adevVal k f => exact tausInv_adev debug A k f s st h

theorem tausInv_run (debug : Bool) (A : AdevModel) (s : Session)
    (calls : List AllanCall) (st : AllanState) (h : TausInv s st) :
    TausInv s (runCalls debug A s calls st) := by
  induction calls generalizing st with
  | nil => exact h
  | cons c cs ih =>
    exact ih (stepCall debug A s c st) (tausInv_step debug A s c st h)

/-! ## Lemmas about failure paths and short inputs -/

theorem rate_none_of_short (s : Session)
    (h : timeSampleCount s < MIN_DATA_SAMPLES_FOR_AVAR) :
    (getImuSamplingRate s).1 = none := by
  unfold getImuSamplingRate
  unfold timeSampleCount at h
  cases hm : s.getMeasurementRaw IMU_SENSOR_KEY IMU_TIME_KEY with
  | none => rfl
  | some ts =>
    rw [hm] at h
    simp only [Option.getD_some] at h
    simp only [if_pos h]

theorem tausFresh_short (A : AdevModel) (s : Session)
    (h : timeSampleCount s < MIN_DATA_SAMPLES_FOR_AVAR) :
    (tausFreshCompute A s).1 = none ∧ (tausFreshCompute A s).2.1 = false := by
  unfold tausFreshCompute
  rw [rate_none_of_short s h]
  exact ⟨rfl, rfl⟩

theorem adevFresh_short (A : AdevModel) (origKey : String) (factor : ℚ)
    (s : Session) (ctv : Option (List ℚ))
    (h : axisSampleCount s origKey < MIN_DATA_SAMPLES_FOR_AVAR) :
    (adevFreshCompute A origKey factor s ctv).1 = none ∧
    (adevFreshCompute A origKey factor s ctv).2.1 = false := by
  unfold adevFreshCompute
  cases ctv with
  | none => exact ⟨rfl, rfl⟩
  | some ct =>
    unfold axisSampleCount at h
    cases hm : s.getMeasurementRaw IMU_SENSOR_KEY origKey with
    | none => exact ⟨rfl, rfl⟩
    | some rawData =>
      rw [hm] at h
      simp only [Option.getD_some] at h
      constructor <;> simp [h]

/-! ## Congruence and cross-session preservation -/

theorem commonTaus_result_congr (debug : Bool) (A : AdevModel) (s : Session)
    (st st' : AllanState)
    (h : alistLookup st.commonTausCache (sessionIdStr s) =
         alistLookup st'.commonTausCache (sessionIdStr s)) :
    (commonTausCompute debug A s st).1 = (commonTausCompute debug A s st').1 := by
  cases hA : A.allantoolsAvailable
  · rw [commonTaus_not_available hA, commonTaus_not_available hA]
  · cases hv : alistLookup st'.commonTausCache (sessionIdStr s) with
    | some v => rw [commonTaus_hit hA (h.trans hv), commonTaus_hit hA hv]
    | none => rw [commonTaus_miss hA (h.trans hv), commonTaus_miss hA hv]

theorem adev_result_congr (debug : Bool) (A : AdevModel) (origKey : String)
    (factor : ℚ) (s : Session) (st st' : AllanState)
    (h1 : alistLookup st.adevValuesCache (sessionIdStr s, origKey) =
          alistLookup st'.adevValuesCache (sessionIdStr s, origKey))
    (h2 : alistLookup st.commonTausCache (sessionIdStr s) =
          alistLookup st'.commonTausCache (sessionIdStr s)) :
    (adevCompute debug A origKey factor s st).1 =
      (adevCompute debug A origKey factor s st').1 := by
  cases hA : A.allantoolsAvailable
  · rw [adev_not_available hA, adev_not_available hA]
  · cases hv : alistLookup st'.adevValuesCache (sessionIdStr s, origKey) with
    | some v => rw [adev_hit hA (h1.trans hv), adev_hit hA hv]
    | none =>
      rw [adev_miss hA (h1.trans hv), adev_miss hA hv]
      simp only [resolveCommonTaus]
      rw [commonTaus_result_congr debug A s st st' h2]

theorem step_lookup_other (debug : Bool) (A : AdevModel) (s1 : Session)
    (c : AllanCall) (st : AllanState) (sid : String) (k : String)
    (h : sid ≠ sessionIdStr s1) :
    alistLookup (stepCall debug A s1 c st).commonTausCache sid =
      alistLookup st.commonTausCache sid ∧
    alistLookup (stepCall debug A s1 c st).adevValuesCache (sid, k) =
      alistLookup st.adevValuesCache (sid, k) := by
  cases c with
  | taus =>
    exact ⟨commonTaus_lookup_other debug A s1 st sid h,
      by rw [stepCall, commonTaus_adevCache]⟩
  | adevVal k2 f =>
    exact ⟨adev_tausLookup_other debug A k2 f s1 st sid h,
      adev_lookup_other debug A k2 f s1 st sid k h⟩

theorem run_lookup_other (debug : Bool) (A : AdevModel) (s1 : Session)
    (calls : List AllanCall) (st : AllanState) (sid : String) (k : String)
    (h : sid ≠ sessionIdStr s1) :
    alistLookup (runCalls debug A s1 calls st).commonTausCache sid =
      alistLookup st.commonTausCache sid ∧
    alistLookup (runCalls debug A s1 calls st).adevValuesCache (sid, k) =
      alistLookup st.adevValuesCache (sid, k) := by
  induction calls generalizing st with
  | nil => exact ⟨rfl, rfl⟩
  | cons c cs ih =>
    rcases step_lookup_other debug A s1 c st sid k h with ⟨e1, e2⟩
    rcases ih (stepCall debug A s1 c st) with ⟨e3, e4⟩
    exact ⟨e3.trans e1, e4.trans e2⟩

/-! ## Request-list lemmas -/

theorem getRate_reqs (s : Session) :
    (getImuSamplingRate s).2 = [meas IMU_SENSOR_KEY IMU_TIME_KEY] := rfl

theorem tausFresh_reqs (A : AdevModel) (s : Session) :
    ∀ k ∈ (tausFreshCompute A s).2.2, k = meas IMU_SENSOR_KEY IMU_TIME_KEY := by
  intro k hk
  unfold tausFreshCompute at hk
  rcases hr : (getImuSamplingRate s).1 with _ | rate
  · rw [hr] at hk
    simp [getImuSamplingRate] at hk
    exact hk
  · rw [hr] at hk
    by_cases hn : ((s.getMeasurementRaw IMU_SENSOR_KEY IMU_TIME_KEY).getD []).length <
        MIN_DATA_SAMPLES_FOR_AVAR
    · simp [hn, getImuSamplingRate] at hk
      tauto
    · rcases ha : A.adev (List.replicate
          ((s.getMeasurementRaw IMU_SENSOR_KEY IMU_TIME_KEY).getD []).length 0) rate
          TausArg.octave with out | e <;>
        simp [hn, ha, getImuSamplingRate] at hk <;> tauto

theorem adevFresh_reqs (A : AdevModel) (origKey : String) (factor : ℚ)
    (s : Session) (ctv : Option (List ℚ)) :
    ∀ k ∈ (adevFreshCompute A origKey factor s ctv).2.2,
      k = meas IMU_SENSOR_KEY origKey ∨ k = meas IMU_SENSOR_KEY IMU_TIME_KEY := by
  intro k hk
  unfold adevFreshCompute at hk
  rcases ctv with _ | ct
  · simp at hk
  · rcases hm : s.getMeasurementRaw IMU_SENSOR_KEY origKey with _ | rawData
    · rw [hm] at hk
      simp at hk
      tauto
    · rw [hm] at hk
      by_cases hn : rawData.length < MIN_DATA_SAMPLES_FOR_AVAR
      · simp [hn] at hk
        tauto
      · rcases hr : (getImuSamplingRate s).1 with _ | rate
        · simp [hn, hr, getRate_reqs] at hk
          tauto
        · rcases ha : A.adev (List.map (fun x => x * factor) rawData) rate
              (TausArg.arr ct) with out | e <;>
            simp [hn, hr, ha, getRate_reqs] at hk <;> tauto

theorem commonTaus_miss_result {debug : Bool} {A : AdevModel} {s : Session}
    {st : AllanState}
    (hA : A.allantoolsAvailable = true)
    (hv : alistLookup st.commonTausCache (sessionIdStr s) = none) :
    (commonTausCompute debug A s st).1 = (tausFreshCompute A s).1 := by
  rw [commonTaus_miss hA hv]

theorem commonTaus_miss_reqs {debug : Bool} {A : AdevModel} {s : Session}
    {st : AllanState}
    (hA : A.allantoolsAvailable = true)
    (hv : alistLookup st.commonTausCache (sessionIdStr s) = none) :
    (commonTausCompute debug A s st).2.2 =
      attr "SESSION_ID" :: (tausFreshCompute A s).2.2 := by
  rw [commonTaus_miss hA hv]

theorem adev_miss_result {debug : Bool} {A : AdevModel} {origKey : String}
    {factor : ℚ} {s : Session} {st : AllanState}
    (hA : A.allantoolsAvailable = true)
    (hv : alistLookup st.adevValuesCache (sessionIdStr s, origKey) = none) :
    (adevCompute debug A origKey factor s st).1 =
      (adevFreshCompute A origKey factor s (commonTausCompute debug A s st).1).1 := by
  rw [adev_miss hA hv]
  rfl

theorem adev_miss_reqs {debug : Bool} {A : AdevModel} {origKey : String}
    {factor : ℚ} {s : Session} {st : AllanState}
    (hA : A.allantoolsAvailable = true)
    (hv : alistLookup st.adevValuesCache (sessionIdStr s, origKey) = none) :
    (adevCompute debug A origKey factor s st).2.2 =
      attr "SESSION_ID" :: meas ALLAN_SENSOR_KEY COMMON_TAUS_MEASUREMENT_NAME ::
        (adevFreshCompute A origKey factor s (commonTausCompute debug A s st).1).2.2 := by
  rw [adev_miss hA hv]
  rfl

theorem tausFresh_some_reqs (A : AdevModel) (s : Session)
    (h : (tausFreshCompute A s).1.isSome = true) :
    (tausFreshCompute A s).2.2 =
      (getImuSamplingRate s).2 ++ [meas IMU_SENSOR_KEY IMU_TIME_KEY] := by
  rcases hr : (getImuSamplingRate s).1 with _ | rate
  · exfalso
    have he : (tausFreshCompute A s).1 = none := by
      unfold tausFreshCompute; rw [hr]
    rw [he] at h
    simp at h
  · have h22 : (tausFreshCompute A s).2.2 =
        (getImuSamplingRate s).2 ++ [meas IMU_SENSOR_KEY IMU_TIME_KEY] := by
      unfold tausFreshCompute
      simp only [hr]
      by_cases hn : ((s.getMeasurementRaw IMU_SENSOR_KEY IMU_TIME_KEY).getD []).length <
          MIN_DATA_SAMPLES_FOR_AVAR
      · simp [hn]
      · rcases ha : A.adev (List.replicate
            ((s.getMeasurementRaw IMU_SENSOR_KEY IMU_TIME_KEY).getD []).length 0) rate
            TausArg.octave with out | e <;> simp [hn, ha]
    exact h22

theorem adevFresh_some_reqs (A : AdevModel) (origKey : String) (factor : ℚ)
    (s : Session) (ctv : Option (List ℚ))
    (h : (adevFreshCompute A origKey factor s ctv).1.isSome = true) :
    (adevFreshCompute A origKey factor s ctv).2.2 =
      [meas IMU_SENSOR_KEY origKey] ++ (getImuSamplingRate s).2 := by
  rcases ctv with _ | ct
  · rw [show (adevFreshCompute A origKey factor s none).1 = none from rfl] at h
    simp at h
  · rcases hm : s.getMeasurementRaw IMU_SENSOR_KEY origKey with _ | rawData
    · exfalso
      have he : (adevFreshCompute A origKey factor s (some ct)).1 = none := by
        unfold adevFreshCompute
        simp only [hm]
      rw [he] at h
      simp at h
    · by_cases hn : rawData.length < MIN_DATA_SAMPLES_FOR_AVAR
      · exfalso
        have he : (adevFreshCompute A origKey factor s (some ct)).1 = none := by
          unfold adevFreshCompute
          simp only [hm]
          simp [hn]
        rw [he] at h
        simp at h
      · have h22 : (adevFreshCompute A origKey factor s (some ct)).2.2 =
            [meas IMU_SENSOR_KEY origKey] ++ (getImuSamplingRate s).2 := by
          unfold adevFreshCompute
          simp only [hm]
          rw [if_neg hn]
          rcases hr : (getImuSamplingRate s).1 with _ | rate
          · simp [hr]
          · rcases ha : A.adev (List.map (fun x => x * factor) rawData) rate
                (TausArg.arr ct) with out | e <;> simp [hr, ha]
        exact h22

/-! ## Min/max fold lemmas for the duration producers -/

theorem foldl_min_le_init (l : List ℚ) (a : ℚ) : l.foldl min a ≤ a := by
  induction l generalizing a with
  | nil => exact le_refl a
  | cons x xs ih => exact le_trans (ih (min a x)) (min_le_left a x)

theorem init_le_foldl_max (l : List ℚ) (a : ℚ) : a ≤ l.foldl max a := by
  induction l generalizing a with
  | nil => exact le_refl a
  | cons x xs ih => exact le_trans (le_max_left a x) (ih (max a x))

theorem listMin_le_listMax (l : List ℚ) : listMin l ≤ listMax l :=
  le_trans (foldl_min_le_init l (l.headD 0)) (init_le_foldl_max l (l.headD 0))

/-! ## Facts about the concrete 2000-sample sequence -/

theorem wTimes_length : wTimes.length = 2000 := by
  unfold wTimes
  rw [List.length_append, List.length_cons, List.length_replicate, List.length_singleton]

theorem wTimes_last : wTimes.getLastD 0 = 1 := by
  unfold wTimes
  rw [List.getLastD_concat]

theorem wTimes_head : wTimes.headD 0 = 0 := rfl

/-! ## Claim theorems -/

/-- Claim C1, counterexample: the claim asserts that for
`times = [0.0, 1.0]` the sampling-rate computation returns `1.0`; in the
source the size guard of `_get_imu_sampling_rate` compares against
`MIN_DATA_SAMPLES_FOR_AVAR = 2000`, not 2, so on a session whose
`IMU/_time` table is `[0.0, 1.0]` the computation returns unavailable
(`none`), not `1.0`. -/
theorem c1_sampling_rate_counterexample :
    (getImuSamplingRate c1Session).1 = none ∧
    (getImuSamplingRate c1Session).1 ≠ some 1 := by
  constructor <;> decide

/-- Claim C1 (amended): the sampling-rate computation returns
`(n_samples - 1) / (t_last - t_first)`; it returns unavailable (`none`) if
fewer than `MIN_DATA_SAMPLES_FOR_AVAR = 2000` samples exist (not 2), if the
absolute time span is below `1e-9`, or if the resulting rate is
non-positive; whenever it does return a rate, that rate is positive, equals
the formula, and at least 2000 samples were present. In particular all three
concrete example inputs of the claim (`[0.0, 1.0]`, `[5.0]`,
`[3.0, 3.0, 3.0]`) return unavailable, since each has fewer than 2000
samples. -/
theorem c1_sampling_rate_amended (s : Session) (ts : List ℚ)
    (hdata : s.getMeasurementRaw IMU_SENSOR_KEY IMU_TIME_KEY = some ts) :
    (ts.length < MIN_DATA_SAMPLES_FOR_AVAR → (getImuSamplingRate s).1 = none) ∧
    (|ts.getLastD 0 - ts.headD 0| < (1 : ℚ) / 1000000000 →
      (getImuSamplingRate s).1 = none) ∧
    (∀ r, (getImuSamplingRate s).1 = some r →
      r = ((ts.length : ℚ) - 1) / (ts.getLastD 0 - ts.headD 0) ∧ 0 < r ∧
      MIN_DATA_SAMPLES_FOR_AVAR ≤ ts.length) ∧
    (MIN_DATA_SAMPLES_FOR_AVAR ≤ ts.length →
      (1 : ℚ) / 1000000000 ≤ |ts.getLastD 0 - ts.headD 0| →
      0 < ((ts.length : ℚ) - 1) / (ts.getLastD 0 - ts.headD 0) →
      (getImuSamplingRate s).1 =
        some (((ts.length : ℚ) - 1) / (ts.getLastD 0 - ts.headD 0))) := by
  have key : (getImuSamplingRate s).1 =
      (if ts.length < MIN_DATA_SAMPLES_FOR_AVAR then none
       else if |ts.getLastD 0 - ts.headD 0| < (1 : ℚ) / 1000000000 then none
       else if ((ts.length : ℚ) - 1) / (ts.getLastD 0 - ts.headD 0) ≤ 0 then none
       else some (((ts.length : ℚ) - 1) / (ts.getLastD 0 - ts.headD 0))) := by
    simp only [getImuSamplingRate, hdata]
  refine ⟨?_, ?_, ?_, ?_⟩
  · intro h
    rw [key, if_pos h]
  · intro h
    rw [key]
    by_cases h1 : ts.length < MIN_DATA_SAMPLES_FOR_AVAR
    · rw [if_pos h1]
    · rw [if_neg h1, if_pos h]
  · intro r hr
    rw [key] at hr
    split_ifs at hr with h1 h2 h3
    have hre := Option.some_inj.mp hr
    subst hre
    exact ⟨rfl, not_le.mp h3, not_lt.mp h1⟩
  · intro h1 h2 h3
    rw [key, if_neg (not_lt.mpr h1), if_neg (not_lt.mpr h2), if_neg (not_le.mpr h3)]

/-- Witness for C1 (amended), at the 2000-sample session `wSession`: the
hypothesis holds by `rfl`, and on this input the computation concretely
returns the rate `(2000 - 1) / (1 - 0) = 1999`. -/
theorem c1_sampling_rate_amended_witness :
    (wSession.getMeasurementRaw IMU_SENSOR_KEY IMU_TIME_KEY = some wTimes) ∧
    ((wTimes.length < MIN_DATA_SAMPLES_FOR_AVAR → (getImuSamplingRate wSession).1 = none) ∧
     (|wTimes.getLastD 0 - wTimes.headD 0| < (1 : ℚ) / 1000000000 →
       (getImuSamplingRate wSession).1 = none) ∧
     (∀ r, (getImuSamplingRate wSession).1 = some r →
       r = ((wTimes.length : ℚ) - 1) / (wTimes.getLastD 0 - wTimes.headD 0) ∧ 0 < r ∧
       MIN_DATA_SAMPLES_FOR_AVAR ≤ wTimes.length) ∧
     (MIN_DATA_SAMPLES_FOR_AVAR ≤ wTimes.length →
       (1 : ℚ) / 1000000000 ≤ |wTimes.getLastD 0 - wTimes.headD 0| →
       0 < ((wTimes.length : ℚ) - 1) / (wTimes.getLastD 0 - wTimes.headD 0) →
       (getImuSamplingRate wSession).1 =
         some (((wTimes.length : ℚ) - 1) / (wTimes.getLastD 0 - wTimes.headD 0)))) ∧
    (getImuSamplingRate wSession).1 = some 1999 := by
  have hd : wSession.getMeasurementRaw IMU_SENSOR_KEY IMU_TIME_KEY = some wTimes := rfl
  have main := c1_sampling_rate_amended wSession wTimes hd
  refine ⟨hd, main, ?_⟩
  have h4 := main.2.2.2
  rw [wTimes_length, wTimes_last, wTimes_head] at h4
  have hres := h4 (by norm_num [MIN_DATA_SAMPLES_FOR_AVAR]) (by norm_num) (by norm_num)
  rw [hres]
  norm_num

/-- Claim C2, counterexample: `AllanCommonTausPlugin.compute` requests the
attribute key `SESSION_ID` through `session.getAttribute` (line 99), but
`SESSION_ID` is not among the keys returned by its `inputs()` — an
undeclared key is fetched, so the claim that every plugin requests exactly
the keys it declared is false. -/
theorem c2_declared_inputs_counterexample :
    attr "SESSION_ID" ∈ (commonTausCompute true c2OkModel c2Session initAllanState).2.2 ∧
    attr "SESSION_ID" ∉ commonTausInputs := by
  constructor <;> decide

/-- Claim C2 (amended): every session key requested inside the Allan
plugins' `compute()` is either among the keys returned by that plugin's
`inputs()` or the attribute `SESSION_ID`, which both plugins fetch without
declaring it (they use it as the partition key of their module-level
caches); moreover, whenever a fresh (uncached) computation succeeds, every
declared input key actually was requested. -/
theorem c2_declared_inputs_amended (debug : Bool) (A : AdevModel) (s : Session)
    (st : AllanState) (origKey : String) (factor : ℚ) :
    (∀ k ∈ (commonTausCompute debug A s st).2.2,
       k ∈ commonTausInputs ∨ k = attr "SESSION_ID") ∧
    (∀ k ∈ (adevCompute debug A origKey factor s st).2.2,
       k ∈ adevValueInputs origKey ∨ k = attr "SESSION_ID") ∧
    ((commonTausCompute debug A s st).1.isSome = true →
      alistLookup st.commonTausCache (sessionIdStr s) = none →
      ∀ k ∈ commonTausInputs, k ∈ (commonTausCompute debug A s st).2.2) ∧
    ((adevCompute debug A origKey factor s st).1.isSome = true →
      alistLookup st.adevValuesCache (sessionIdStr s, origKey) = none →
      ∀ k ∈ adevValueInputs origKey,
        k ∈ (adevCompute debug A origKey factor s st).2.2) := by
  refine ⟨?_, ?_, ?_, ?_⟩
  · intro k hk
    cases hA : A.allantoolsAvailable
    · rw [commonTaus_not_available hA] at hk
      simp at hk
    · cases hv : alistLookup st.commonTausCache (sessionIdStr s) with
      | some v =>
        rw [commonTaus_hit hA hv] at hk
        simp at hk
        right; exact hk
      | none =>
        rw [commonTaus_miss_reqs hA hv] at hk
        simp only [List.mem_cons] at hk
        rcases hk with hk | hk
        · right; exact hk
        · left
          rw [tausFresh_reqs A s k hk]
          simp [commonTausInputs]
  · intro k hk
    cases hA : A.allantoolsAvailable
    · rw [adev_not_available hA] at hk
      simp at hk
    · cases hv : alistLookup st.adevValuesCache (sessionIdStr s, origKey) with
      | some v =>
        rw [adev_hit hA hv] at hk
        simp at hk
        right; exact hk
      | none =>
        rw [adev_miss_reqs hA hv] at hk
        simp only [List.mem_cons] at hk
        rcases hk with hk | hk | hk
        · right; exact hk
        · left; rw [hk]; simp [adevValueInputs]
        · left
          rcases adevFresh_reqs A origKey factor s
              (commonTausCompute debug A s st).1 k hk with he | he <;>
            rw [he] <;> simp [adevValueInputs]
  · intro hs hv k hk
    cases hA : A.allantoolsAvailable
    · rw [commonTaus_not_available hA] at hs
      simp at hs
    · rw [commonTaus_miss_result hA hv] at hs
      rw [commonTaus_miss_reqs hA hv, tausFresh_some_reqs A s hs, getRate_reqs]
      simp [commonTausInputs] at hk
      rw [hk]
      simp
  · intro hs hv k hk
    cases hA : A.allantoolsAvailable
    · rw [adev_not_available hA] at hs
      simp at hs
    · rw [adev_miss_result hA hv] at hs
      rw [adev_miss_reqs hA hv,
        adevFresh_some_reqs A origKey factor s (commonTausCompute debug A s st).1 hs,
        getRate_reqs]
      simp only [adevValueInputs, List.mem_cons, List.not_mem_nil, or_false] at hk
      rcases hk with hk | hk | hk <;> rw [hk] <;> simp

/-- Witness for C2 (amended), at a concrete session and the concrete key
`SESSION_ID`: that key is really among the requests of the common-taus
compute, and the amended bound holds for it. -/
theorem c2_declared_inputs_amended_witness :
    attr "SESSION_ID" ∈ (commonTausCompute true c2OkModel c2Session initAllanState).2.2 ∧
    (attr "SESSION_ID" ∈ commonTausInputs ∨ attr "SESSION_ID" = attr "SESSION_ID") :=
  ⟨by decide,
   (c2_declared_inputs_amended true c2OkModel c2Session initAllanState "ax" 1).1
     (attr "SESSION_ID") (by decide)⟩

/-- Claim C3 (confirmed): for a fixed session, across any sequence of
compute invocations of the common-taus producer and of adev-value producer
instances (e.g. `adev_ax` then `adev_ay`), the underlying taus-producing
`allantools.adev` call executes at most once, provided the session started
uncached with the execution counter at zero; and once the session's
common-taus cache entry holds a value, every further common-taus compute
returns exactly the stored value and leaves the state unchanged. The host
resolver is modelled worst-case: each `getMeasurement` of `common_taus`
re-enters the producer's compute. -/
theorem c3_common_taus_at_most_once (debug : Bool) (A : AdevModel) (s : Session)
    (calls : List AllanCall) (st0 : AllanState)
    (h0 : alistLookup st0.commonTausCache (sessionIdStr s) = none)
    (hc : st0.tausAdevCalls = 0)
    (hA : A.allantoolsAvailable = true) :
    (runCalls debug A s calls st0).tausAdevCalls ≤ 1 ∧
    (∀ v, alistLookup (runCalls debug A s calls st0).commonTausCache
        (sessionIdStr s) = some v →
      commonTausCompute debug A s (runCalls debug A s calls st0) =
        (v, runCalls debug A s calls st0, [attr "SESSION_ID"])) := by
  have hinv : TausInv s (runCalls debug A s calls st0) :=
    tausInv_run debug A s calls st0 ⟨by omega, fun _ => hc⟩
  refine ⟨hinv.1, ?_⟩
  intro v hv
  exact commonTaus_hit hA hv

/-- Witness for C3 at the concrete scenario of the claim: resolving
`adev_ax` then `adev_ay` in one session executes the taus computation at
most once. -/
theorem c3_common_taus_at_most_once_witness :
    alistLookup initAllanState.commonTausCache (sessionIdStr c3Session) = none ∧
    initAllanState.tausAdevCalls = 0 ∧
    c3Model.allantoolsAvailable = true ∧
    ((runCalls true c3Model c3Session
        [AllanCall.adevVal "ax" 1, AllanCall.adevVal "ay" 1] initAllanState).tausAdevCalls ≤ 1 ∧
     (∀ v, alistLookup (runCalls true c3Model c3Session
          [AllanCall.adevVal "ax" 1, AllanCall.adevVal "ay" 1] initAllanState).commonTausCache
          (sessionIdStr c3Session) = some v →
        commonTausCompute true c3Model c3Session (runCalls true c3Model c3Session
          [AllanCall.adevVal "ax" 1, AllanCall.adevVal "ay" 1] initAllanState) =
        (v, runCalls true c3Model c3Session
          [AllanCall.adevVal "ax" 1, AllanCall.adevVal "ay" 1] initAllanState,
         [attr "SESSION_ID"]))) :=
  ⟨rfl, rfl, rfl,
   c3_common_taus_at_most_once true c3Model c3Session
     [AllanCall.adevVal "ax" 1, AllanCall.adevVal "ay" 1] initAllanState rfl rfl rfl⟩

/-- Claim C4 (confirmed): failure is terminal within a session. Whenever an
adev-value compute returns unavailable (with the allantools library
available), unavailable is cached for that (session id, key), and a
subsequent compute of the same key in the same session returns the
identical unavailable result with the state completely unchanged — the
computation is not re-attempted. -/
theorem c4_failure_terminal (debug : Bool) (A : AdevModel) (origKey : String)
    (factor : ℚ) (s : Session) (st : AllanState)
    (hA : A.allantoolsAvailable = true)
    (hfail : (adevCompute debug A origKey factor s st).1 = none) :
    alistLookup (adevCompute debug A origKey factor s st).2.1.adevValuesCache
        (sessionIdStr s, origKey) = some none ∧
    adevCompute debug A origKey factor s ((adevCompute debug A origKey factor s st).2.1) =
      (none, (adevCompute debug A origKey factor s st).2.1, [attr "SESSION_ID"]) := by
  have h1 := adev_lookup_self debug A origKey factor s st hA
  rw [hfail] at h1
  exact ⟨h1, adev_hit hA h1⟩

/-- Witness for C4 at a concrete empty session, whose adev compute fails
for lack of data. -/
theorem c4_failure_terminal_witness :
    c4Model.allantoolsAvailable = true ∧
    (adevCompute true c4Model "ax" 1 c4Session initAllanState).1 = none ∧
    (alistLookup (adevCompute true c4Model "ax" 1 c4Session initAllanState).2.1.adevValuesCache
        (sessionIdStr c4Session, "ax") = some none ∧
     adevCompute true c4Model "ax" 1 c4Session
         ((adevCompute true c4Model "ax" 1 c4Session initAllanState).2.1) =
       (none, (adevCompute true c4Model "ax" 1 c4Session initAllanState).2.1,
        [attr "SESSION_ID"])) :=
  ⟨rfl, rfl, c4_failure_terminal true c4Model "ax" 1 c4Session initAllanState rfl rfl⟩

/-- Claim C5 (confirmed): cache isolation across sessions. For two sessions
with distinct session ids, any sequence of compute invocations performed in
the first session changes neither the common-taus result nor any adev-value
result computed in the second session — nothing cached for one session is
ever returned for the other. -/
theorem c5_cache_isolation (debug : Bool) (A : AdevModel) (s1 s2 : Session)
    (calls : List AllanCall) (st : AllanState) (origKey : String) (factor : ℚ)
    (hne : sessionIdStr s1 ≠ sessionIdStr s2) :
    (commonTausCompute debug A s2 (runCalls debug A s1 calls st)).1 =
      (commonTausCompute debug A s2 st).1 ∧
    (adevCompute debug A origKey factor s2 (runCalls debug A s1 calls st)).1 =
      (adevCompute debug A origKey factor s2 st).1 := by
  rcases run_lookup_other debug A s1 calls st (sessionIdStr s2) origKey
    (Ne.symm hne) with ⟨e1, e2⟩
  exact ⟨commonTaus_result_congr debug A s2 _ st e1,
    adev_result_congr debug A origKey factor s2 _ st e2 e1⟩

/-- Witness for C5 at two concrete sessions with ids `"A"` and `"B"`. -/
theorem c5_cache_isolation_witness :
    sessionIdStr c5SessionA ≠ sessionIdStr c5SessionB ∧
    ((commonTausCompute true c5Model c5SessionB
        (runCalls true c5Model c5SessionA [AllanCall.taus] initAllanState)).1 =
       (commonTausCompute true c5Model c5SessionB initAllanState).1 ∧
     (adevCompute true c5Model "ax" 1 c5SessionB
        (runCalls true c5Model c5SessionA [AllanCall.taus] initAllanState)).1 =
       (adevCompute true c5Model "ax" 1 c5SessionB initAllanState).1) :=
  ⟨by decide,
   c5_cache_isolation true c5Model c5SessionA c5SessionB [AllanCall.taus]
     initAllanState "ax" 1 (by decide)⟩

/-- Claim C6 (confirmed): when its input data has fewer than
`MIN_DATA_SAMPLES_FOR_AVAR = 2000` samples, each Allan producer returns
unavailable without invoking its spectral computation: the common-taus
producer returns `none` leaving the taus adev-call counter unchanged when
the time channel is short, and an adev-value producer returns `none`
leaving the value adev-call counter unchanged when its axis channel is
short (in each case starting from an uncached state). -/
theorem c6_min_samples_unavailable (debug : Bool) (A : AdevModel) (s : Session)
    (st : AllanState) (origKey : String) (factor : ℚ)
    (h1 : alistLookup st.commonTausCache (sessionIdStr s) = none)
    (h2 : alistLookup st.adevValuesCache (sessionIdStr s, origKey) = none) :
    (timeSampleCount s < MIN_DATA_SAMPLES_FOR_AVAR →
      (commonTausCompute debug A s st).1 = none ∧
      (commonTausCompute debug A s st).2.1.tausAdevCalls = st.tausAdevCalls) ∧
    (axisSampleCount s origKey < MIN_DATA_SAMPLES_FOR_AVAR →
      (adevCompute debug A origKey factor s st).1 = none ∧
      (adevCompute debug A origKey factor s st).2.1.valAdevCalls = st.valAdevCalls) := by
  constructor
  · intro hshort
    cases hA : A.allantoolsAvailable
    · rw [commonTaus_not_available hA]; exact ⟨rfl, rfl⟩
    · rw [commonTaus_miss hA h1]
      rcases tausFresh_short A s hshort with ⟨hr, hb⟩
      rw [hb]
      exact ⟨hr, rfl⟩
  · intro hshort
    cases hA : A.allantoolsAvailable
    · rw [adev_not_available hA]; exact ⟨rfl, rfl⟩
    · rw [adev_miss hA h2]
      rcases adevFresh_short A origKey factor s (resolveCommonTaus debug A s st).1 hshort
        with ⟨hr, hb⟩
      simp only [resolveCommonTaus] at hr hb
      simp only [resolveCommonTaus, hb, Bool.false_eq_true, if_false]
      exact ⟨hr, commonTaus_valCalls debug A s st⟩

/-- Witness for C6 at a concrete session with 3 time samples and 3 axis
samples (both below the 2000 threshold). -/
theorem c6_min_samples_unavailable_witness :
    alistLookup initAllanState.commonTausCache (sessionIdStr c6Session) = none ∧
    alistLookup initAllanState.adevValuesCache (sessionIdStr c6Session, "ax") = none ∧
    timeSampleCount c6Session < MIN_DATA_SAMPLES_FOR_AVAR ∧
    axisSampleCount c6Session "ax" < MIN_DATA_SAMPLES_FOR_AVAR ∧
    ((commonTausCompute true c6Model c6Session initAllanState).1 = none ∧
     (commonTausCompute true c6Model c6Session initAllanState).2.1.tausAdevCalls =
       initAllanState.tausAdevCalls) ∧
    ((adevCompute true c6Model "ax" 1 c6Session initAllanState).1 = none ∧
     (adevCompute true c6Model "ax" 1 c6Session initAllanState).2.1.valAdevCalls =
       initAllanState.valAdevCalls) :=
  ⟨rfl, rfl, by decide, by decide,
   (c6_min_samples_unavailable true c6Model c6Session initAllanState "ax" 1 rfl rfl).1
     (by decide),
   (c6_min_samples_unavailable true c6Model c6Session initAllanState "ax" 1 rfl rfl).2
     (by decide)⟩

/-- Claim C7 (confirmed): for every non-empty time sequence, both duration
producers (`PitotDuration.compute` and `DefaultDuration.compute`) return
`max(times) - min(times)`, and any duration they return is non-negative
(the negative-duration guard in the source would return unavailable, but
`max - min` is never negative). Concretely, `[10.0, 2.0]` yields `8.0` (see
the witness). -/
theorem c7_duration_producers (times : List ℚ) (h : times ≠ []) :
    pitotDurationCompute times = some (listMax times - listMin times) ∧
    defaultDurationCompute times = some (listMax times - listMin times) ∧
    (∀ v, pitotDurationCompute times = some v → 0 ≤ v) ∧
    (∀ v, defaultDurationCompute times = some v → 0 ≤ v) := by
  have hlen : ¬(times.length = 0) := fun hl => h (List.length_eq_zero.mp hl)
  have hnn : 0 ≤ listMax times - listMin times :=
    sub_nonneg.mpr (listMin_le_listMax times)
  have h1 : pitotDurationCompute times = some (listMax times - listMin times) := by
    simp only [pitotDurationCompute, if_neg hlen]
    rw [if_neg (not_lt.mpr hnn)]
  have h2 : defaultDurationCompute times = some (listMax times - listMin times) := by
    simp only [defaultDurationCompute, if_neg hlen]
    rw [if_pos hnn]
  refine ⟨h1, h2, ?_, ?_⟩
  · intro v hv
    rw [h1] at hv
    exact (Option.some_inj.mp hv) ▸ hnn
  · intro v hv
    rw [h2] at hv
    exact (Option.some_inj.mp hv) ▸ hnn

/-- Witness for C7 at the concrete input `[10.0, 2.0]`, which yields
duration `8.0` from both producers. -/
theorem c7_duration_producers_witness :
    (([10, 2] : List ℚ) ≠ []) ∧
    (pitotDurationCompute [10, 2] = some (listMax [10, 2] - listMin [10, 2]) ∧
     defaultDurationCompute [10, 2] = some (listMax [10, 2] - listMin [10, 2]) ∧
     (∀ v, pitotDurationCompute [10, 2] = some v → 0 ≤ v) ∧
     (∀ v, defaultDurationCompute [10, 2] = some v → 0 ≤ v)) ∧
    pitotDurationCompute [10, 2] = some 8 ∧
    defaultDurationCompute [10, 2] = some 8 := by
  refine ⟨by simp, c7_duration_producers [10, 2] (by simp), ?_, ?_⟩
  · norm_num [pitotDurationCompute, listMin, listMax, min_def, max_def]
  · norm_num [defaultDurationCompute, listMin, listMax, min_def, max_def]

/-- Claim C8 (confirmed): the debug-verbosity flag derived from the
`FLYSIGHT_DEBUG_ALLAN` environment variable never affects computed results:
for any two environment values, both Allan compute functions return exactly
the same result, cache state and request list. In the source the flag only
gates `print` diagnostics, which the value-level embedding erases, so the
two runs are definitionally identical. -/
theorem c8_debug_flag_no_effect (env1 env2 : Option String) (A : AdevModel)
    (s : Session) (st : AllanState) (origKey : String) (factor : ℚ) :
    commonTausCompute (debugAllanFlag env1) A s st =
      commonTausCompute (debugAllanFlag env2) A s st ∧
    adevCompute (debugAllanFlag env1) A origKey factor s st =
      adevCompute (debugAllanFlag env2) A origKey factor s st :=
  ⟨rfl, rfl⟩

/-- Claim C9 (confirmed): registration is append-only and frame-preserving.
Each of `register_attribute`, `register_measurement`, `register_plot`,
`register_marker` appends exactly one entry at the end of its own registry
list (length grows by one, the previous prefix is unchanged, the new entry
is last) and leaves the other three registries untouched. -/
theorem c9_registration_append_only (st : SdkRegistries) (a : AttributePluginEntry)
    (m : MeasurementPluginEntry) (p : SimplePlot) (mk : SimpleMarker) :
    ((register_attribute st a).attributes.length = st.attributes.length + 1 ∧
     (register_attribute st a).attributes.take st.attributes.length = st.attributes ∧
     (register_attribute st a).attributes.getLast? = some a ∧
     (register_attribute st a).measurements = st.measurements ∧
     (register_attribute st a).simple_plots = st.simple_plots ∧
     (register_attribute st a).markers = st.markers) ∧
    ((register_measurement st m).measurements.length = st.measurements.length + 1 ∧
     (register_measurement st m).measurements.take st.measurements.length = st.measurements ∧
     (register_measurement st m).measurements.getLast? = some m ∧
     (register_measurement st m).attributes = st.attributes ∧
     (register_measurement st m).simple_plots = st.simple_plots ∧
     (register_measurement st m).markers = st.markers) ∧
    ((register_plot st p).simple_plots.length = st.simple_plots.length + 1 ∧
     (register_plot st p).simple_plots.take st.simple_plots.length = st.simple_plots ∧
     (register_plot st p).simple_plots.getLast? = some p ∧
     (register_plot st p).attributes = st.attributes ∧
     (register_plot st p).measurements = st.measurements ∧
     (register_plot st p).markers = st.markers) ∧
    ((register_marker st mk).markers.length = st.markers.length + 1 ∧
     (register_marker st mk).markers.take st.markers.length = st.markers ∧
     (register_marker st mk).markers.getLast? = some mk ∧
     (register_marker st mk).attributes = st.attributes ∧
     (register_marker st mk).measurements = st.measurements ∧
     (register_marker st mk).simple_plots = st.simple_plots) := by
  refine ⟨⟨?_, ?_, ?_, rfl, rfl, rfl⟩, ⟨?_, ?_, ?_, rfl, rfl, rfl⟩,
    ⟨?_, ?_, ?_, rfl, rfl, rfl⟩, ⟨?_, ?_, ?_, rfl, rfl, rfl⟩⟩ <;>
    simp [register_attribute, register_measurement, register_plot, register_marker,
      List.take_left, List.getLast?_concat]

/-- Claim C10 (confirmed): the default attribute and measurement plugins
(`DefaultStartTime`, `DefaultDuration`, `DefaultExitTime`, `DefaultTime`)
and the pitot attribute plugins (`PitotExitTime`, `PitotStartTime`,
`PitotDuration`) all return unavailable (`none`) on an empty referenced
time sequence; in the embedding they are total functions, so no exception
is possible. -/
theorem c10_empty_time_unavailable (isoFmt : ℚ → String) :
    defaultStartTimeCompute isoFmt [] = none ∧
    defaultDurationCompute [] = none ∧
    defaultExitTimeCompute isoFmt [] = none ∧
    defaultTimeCompute [] = none ∧
    pitotExitTimeCompute isoFmt [] = none ∧
    pitotStartTimeCompute isoFmt [] = none ∧
    pitotDurationCompute [] = none :=
  ⟨rfl, rfl, rfl, rfl, rfl, rfl, rfl⟩

end FlysightViewer
